import Mathlib

/-!
Verification development for the calibration script
`calibrations/96_Ramsey_arb_flux.py` ("Ramsey with virtual Z rotations").

The script is a linear pipeline: qubit selection, QUA program construction,
execution (hardware, simulator, or loading a stored dataset), data fetching
into a labeled array, two curve-fit analysis blocks (exponential decay, then
gaussian decay), plotting, and saving the node.  The definitions below embed
the deterministic structure of that pipeline; external library calls
(hardware session, the nonlinear fitters, `np.sqrt`) are passed in as
parameters or `Except`-valued inputs, matching their role as opaque
collaborators that may fail.
-/

set_option autoImplicit false

namespace Ramsey96

/-- Python-dict lookup `d[k]` restricted to its `Option` result: the value of
the first binding of key `k`, `none` when the key is absent (a `KeyError`
in Python).  Also models `xarray`'s `.loc[name]` selection by coordinate. -/
def locLookup {α : Type} : List (String × α) → String → Option α
  | [], _ => Option.none
  | (k', v) :: rest, k => if k' = k then some v else locLookup rest k

/-- Python-dict assignment `d[k] = v`: replace the value of an existing
binding in place, otherwise append the new binding (insertion order kept). -/
def dictSet {α : Type} : List (String × α) → String → α → List (String × α)
  | [], k, v => [(k, v)]
  | (k', v') :: rest, k, v =>
    if k' = k then (k, v) :: rest else (k', v') :: dictSet rest k v

theorem locLookup_dictSet_self {α : Type} (d : List (String × α)) (k : String) (v : α) :
    locLookup (dictSet d k v) k = some v := by
  induction d with
  | nil => simp [dictSet, locLookup]
  | cons p rest ih =>
    by_cases h : p.1 = k
    · simp [dictSet, h, locLookup]
    · simp [dictSet, h, locLookup, ih]

theorem locLookup_dictSet_ne {α : Type} (d : List (String × α)) (k k' : String) (v : α)
    (h : k' ≠ k) : locLookup (dictSet d k v) k' = locLookup d k' := by
  induction d with
  | nil => simp [dictSet, locLookup, Ne.symm h]
  | cons p rest ih =>
    obtain ⟨k1, v1⟩ := p
    by_cases hp : k1 = k
    · subst hp
      simp [dictSet, locLookup, Ne.symm h]
    · simp only [dictSet, if_neg hp, locLookup]
      rw [ih]

/-!
Idle-time sweep.  Line 82 of the script:
`idle_times = (np.arange(min_wait_time_in_ns, max_wait_time_in_ns, 4) // 4).astype(int)`,
and line 183 assigns the absolute time coordinate `4 * idle_times`.
`np.arange(lo, hi, 4)` has `ceil((hi - lo) / 4)` elements `lo + 4 * k`
(the stop value excluded); `// 4` is floor division.
-/

/-- `np.arange(lo, hi, 4)` for the (non-negative) wait-time bounds. -/
def arangeBy4 (lo hi : Nat) : List Nat :=
  (List.range ((hi - lo + 3) / 4)).map (fun k => lo + 4 * k)

/-- The swept idle times in clock cycles: `np.arange(lo, hi, 4) // 4`. -/
def idleTimesCycles (lo hi : Nat) : List Nat :=
  (arangeBy4 lo hi).map (fun t => t / 4)

/-- The absolute idle times in nanoseconds assigned to the dataset's
`time` coordinate: `4 * idle_times`. -/
def absoluteTimes (lo hi : Nat) : List Nat :=
  (idleTimesCycles lo hi).map (fun c => 4 * c)

/-- A fetched result dataset: the `time` coordinate and the per-qubit
`state` data variable (values as rationals). -/
structure Dataset where
  time : List Nat
  state : List (String × List Rat)
deriving DecidableEq

/-- Lines 180 to 185: after `fetch_results_as_xarray` the script overwrites the
`time` coordinate with the absolute idle times `4 * idle_times` (ns). -/
def assignAbsoluteTime (raw : Dataset) (lo hi : Nat) : Dataset :=
  { raw with time := absoluteTimes lo hi }

/-- C5: the `time` coordinate of the result array holds the absolute idle
times in nanoseconds: the values `4 * ((lo + 4 * k) / 4)` for exactly those
`k` with `lo + 4 * k < hi` (the maximum excluded), where `lo` and `hi` are
the configured minimum and maximum wait times and `/` is floor division. -/
theorem c5_time_coordinate (lo hi : Nat) :
    (∀ raw : Dataset, (assignAbsoluteTime raw lo hi).time = absoluteTimes lo hi)
    ∧ absoluteTimes lo hi
        = (List.range ((hi - lo + 3) / 4)).map (fun k => 4 * ((lo + 4 * k) / 4))
    ∧ ∀ k : Nat, k < (hi - lo + 3) / 4 ↔ lo + 4 * k < hi := by
  refine ⟨fun raw => rfl, ?_, fun k => by omega⟩
  simp [absoluteTimes, idleTimesCycles, arangeBy4, List.map_map]

/-- Witness for C5 at the concrete sweep 16 ≤ t < 40. -/
theorem c5_time_coordinate_witness :
    absoluteTimes 16 40
      = (List.range ((40 - 16 + 3) / 4)).map (fun k => 4 * ((16 + 4 * k) / 4))
    ∧ (2 < (40 - 16 + 3) / 4 ↔ 16 + 4 * 2 < 40) :=
  ⟨(c5_time_coordinate 16 40).2.1, (c5_time_coordinate 16 40).2.2 2⟩

/-!
The per-qubit QUA measurement loop, lines 103 to 132.  `init_state[i]` is
declared with `declare(int)` (QUA initializes such variables to 0) and within
the averaging and idle-time loops each shot performs
`readout_state(qubit, state[i])`,
`assign(final_state[i], init_state[i] ^ state[i])`,
`save(final_state[i], state_st[i])`,
`assign(init_state[i], state[i])`.
`savedStream init readouts` is the sequence of values saved to the stream
when the successive readouts are `readouts` and the stored previous-readout
variable starts at `init`.
-/

/-- Values saved to a qubit's result stream: each shot saves the XOR of the
stored previous readout with the current one, then stores the current one. -/
def savedStream (init : Nat) : List Nat → List Nat
  | [] => []
  | r :: rs => (init ^^^ r) :: savedStream r rs

theorem savedStream_length (init : Nat) (rs : List Nat) :
    (savedStream init rs).length = rs.length := by
  induction rs generalizing init with
  | nil => rfl
  | cons r rest ih => simp [savedStream, ih]

theorem savedStream_getD (init : Nat) (rs : List Nat) (j : Nat) (h : j < rs.length) :
    (savedStream init rs).getD j 0
      = (if j = 0 then init else rs.getD (j - 1) 0) ^^^ rs.getD j 0 := by
  induction rs generalizing init j with
  | nil => simp at h
  | cons r rest ih =>
    cases j with
    | zero => simp [savedStream]
    | succ j =>
      have h' : j < rest.length := by simpa using h
      simp only [savedStream, List.getD_cons_succ]
      rw [ih r j h']
      cases j with
      | zero => simp
      | succ j => simp

/-- C6: the value saved to a qubit's result stream at shot `j` is not the raw
readout in general but the XOR of the current readout with the previous
shot's readout; the stored previous-readout variable is initialized (to 0,
the QUA `declare(int)` default) before the first shot and updated to the
current readout after every shot, so the saved value at shot `j` is
`prev j ^^^ readout j` with `prev 0 = 0` and `prev (j+1) = readout j`. -/
theorem c6_xor_with_previous_shot (readouts : List Nat) (j : Nat)
    (h : j < readouts.length) :
    (savedStream 0 readouts).getD j 0
      = (if j = 0 then 0 else readouts.getD (j - 1) 0) ^^^ readouts.getD j 0 :=
  savedStream_getD 0 readouts j h

/-- Witness for C6: for readouts 1, 1, 0 the saved stream is 1, 0, 1 and the
second saved value is `1 ^^^ 1 = 0`, the XOR with the preceding shot. -/
theorem c6_xor_with_previous_shot_witness :
    (savedStream 0 [1, 1, 0]).getD 1 0
      = (if 1 = 0 then 0 else [1, 1, 0].getD (1 - 1) 0) ^^^ [1, 1, 0].getD 1 0 :=
  c6_xor_with_previous_shot [1, 1, 0] 1 (by decide)

/-!
Analysis block, lines 193 to 241 (and its verbatim repetition with the
gaussian model, lines 274 to 321).  A fit returns, per qubit, the values at
`fit_vals` coordinates `a`, `f`, `phi`, `offset`, `decay`, `decay_decay`.
The block computes `frequency = fit.sel(fit_vals="f")`, drops non-positive
frequencies (`frequency.where(frequency > 0, drop=True)`),
`tau = 1 / fit.sel(fit_vals="decay")`,
`tau_error = tau * (np.sqrt(decay_res) / decay)`, scales by `1e9` / `1e-9`,
and builds `fit_results = {q.name: {"freq_offset": ..., "decay": ...,
"decay_error": ...} for q in qubits}` via `.loc[q.name]` lookups.
`np.sqrt` is an opaque library function and is passed as a parameter `sq`;
no claim depends on its values.
-/

/-- Per-qubit output of one call to the external nonlinear fitter. -/
structure FitVals where
  a : Rat
  f : Rat
  phi : Rat
  offset : Rat
  decay : Rat
  decay_decay : Rat
deriving DecidableEq

/-- One qubit's entry of `fit_results`: exactly the keys `freq_offset`,
`decay` and `decay_error` built at lines 233 to 240. -/
structure FitRecord where
  freq_offset : Rat
  decay : Rat
  decay_error : Rat
deriving DecidableEq

/-- `frequency.where(frequency > 0, drop=True)`: the per-qubit fitted
frequencies with the qubits of non-positive frequency dropped. -/
def freqOffsetList (fit : List (String × FitVals)) : List (String × Rat) :=
  (fit.map (fun p => (p.1, p.2.f))).filter (fun p => decide (0 < p.2))

/-- The inner dict of the `fit_results` comprehension for one qubit name:
each `.loc[q]` lookup raises `KeyError` when the coordinate was dropped. -/
def perQubitRecord (sq : Rat → Rat) (fit : List (String × FitVals)) (q : String) :
    Except String FitRecord :=
  match locLookup (freqOffsetList fit) q with
  | Option.none => Except.error ("KeyError: " ++ q)
  | some fo =>
    match locLookup (fit.map (fun p => (p.1, (1 / 1000000000 : Rat) * (1 / p.2.decay)))) q with
    | Option.none => Except.error ("KeyError: " ++ q)
    | some d =>
      match locLookup (fit.map (fun p =>
          (p.1, (1 / 1000000000 : Rat) * ((1 / p.2.decay) * (sq p.2.decay_decay / p.2.decay))))) q with
      | Option.none => Except.error ("KeyError: " ++ q)
      | some de =>
        Except.ok { freq_offset := (1000000000 : Rat) * fo, decay := d, decay_error := de }

/-- The dict comprehension over the selected qubits, in order; the first
failing lookup aborts the whole comprehension. -/
def buildRecords (f : String → Except String FitRecord) :
    List String → Except String (List (String × FitRecord))
  | [] => Except.ok []
  | q :: qs =>
    match f q with
    | Except.error e => Except.error e
    | Except.ok r =>
      match buildRecords f qs with
      | Except.error e => Except.error e
      | Except.ok rest => Except.ok ((q, r) :: rest)

/-- One whole analysis block: from a fit output to the `fit_results` dict. -/
def analysisBlock (sq : Rat → Rat) (qubits : List String)
    (fit : List (String × FitVals)) : Except String (List (String × FitRecord)) :=
  buildRecords (perQubitRecord sq fit) qubits

theorem freqOffsetList_cons (p : String × FitVals) (rest : List (String × FitVals)) :
    freqOffsetList (p :: rest)
      = if 0 < p.2.f then (p.1, p.2.f) :: freqOffsetList rest
        else freqOffsetList rest := by
  by_cases hpos : 0 < p.2.f <;> simp [freqOffsetList, List.filter_cons, hpos]

theorem locLookup_freqOffsetList_some (fit : List (String × FitVals)) (q : String)
    (v : Rat) (h : locLookup (freqOffsetList fit) q = some v) :
    ∃ p, p ∈ fit ∧ p.1 = q ∧ p.2.f = v ∧ 0 < v := by
  induction fit with
  | nil => simp [freqOffsetList, locLookup] at h
  | cons p rest ih =>
    rw [freqOffsetList_cons] at h
    by_cases hpos : 0 < p.2.f
    · rw [if_pos hpos, locLookup] at h
      by_cases hq : p.1 = q
      · rw [if_pos hq] at h
        have hv : p.2.f = v := Option.some.inj h
        exact ⟨p, List.mem_cons_self p rest, hq, hv, hv ▸ hpos⟩
      · rw [if_neg hq] at h
        obtain ⟨p', hmem, h1, h2, h3⟩ := ih h
        exact ⟨p', List.mem_cons_of_mem p hmem, h1, h2, h3⟩
    · rw [if_neg hpos] at h
      obtain ⟨p', hmem, h1, h2, h3⟩ := ih h
      exact ⟨p', List.mem_cons_of_mem p hmem, h1, h2, h3⟩

theorem locLookup_freqOffsetList_none (fit : List (String × FitVals)) (q : String)
    (h : ∀ p, p ∈ fit → p.1 = q → p.2.f ≤ 0) :
    locLookup (freqOffsetList fit) q = Option.none := by
  induction fit with
  | nil => simp [freqOffsetList, locLookup]
  | cons p rest ih =>
    have hrest : locLookup (freqOffsetList rest) q = Option.none :=
      ih (fun p' hm hq => h p' (List.mem_cons_of_mem p hm) hq)
    rw [freqOffsetList_cons]
    by_cases hpos : 0 < p.2.f
    · have hq : p.1 ≠ q := fun hq => absurd (h p (List.mem_cons_self p rest) hq) (by simpa using hpos)
      rw [if_pos hpos, locLookup, if_neg hq]
      exact hrest
    · rw [if_neg hpos]
      exact hrest

theorem buildRecords_ok_lookup (f : String → Except String FitRecord)
    (qs : List String) (l : List (String × FitRecord))
    (h : buildRecords f qs = Except.ok l) :
    ∀ q, q ∈ qs → (f q).isOk = true ∧ ∃ r, locLookup l q = some r := by
  induction qs generalizing l with
  | nil => intro q hq; simp at hq
  | cons x rest ih =>
    intro q hq
    simp only [buildRecords] at h
    cases hx : f x with
    | error e => rw [hx] at h; exact absurd h (by simp)
    | ok r =>
      rw [hx] at h
      cases hrest : buildRecords f rest with
      | error e => rw [hrest] at h; exact absurd h (by simp)
      | ok l' =>
        rw [hrest] at h
        have hl : l = (x, r) :: l' := by
          cases h; rfl
        subst hl
        rcases List.mem_cons.mp hq with hq | hq
        · subst hq
          refine ⟨by simp [hx, Except.isOk, Except.toBool], r, ?_⟩
          simp [locLookup]
        · obtain ⟨h1, r', h2⟩ := ih l' hrest q hq
          refine ⟨h1, ?_⟩
          by_cases hxq : x = q
          · exact ⟨r, by simp [locLookup, hxq]⟩
          · exact ⟨r', by simp [locLookup, hxq, h2]⟩

theorem buildRecords_error_of_mem (f : String → Except String FitRecord)
    (qs : List String) (q : String) (hq : q ∈ qs) (e : String)
    (hf : f q = Except.error e) :
    ∃ e', buildRecords f qs = Except.error e' := by
  induction qs with
  | nil => simp at hq
  | cons x rest ih =>
    rcases List.mem_cons.mp hq with hx | hx
    · subst hx
      exact ⟨e, by simp [buildRecords, hf]⟩
    · cases hgx : f x with
      | error e' => exact ⟨e', by simp [buildRecords, hgx]⟩
      | ok r =>
        obtain ⟨e', he'⟩ := ih hx
        exact ⟨e', by simp [buildRecords, hgx, he']⟩

/-- C7: the `fit_results` construction succeeds only when every selected
qubit has a strictly positive fitted frequency; `frequency.where(frequency
> 0, drop=True)` drops the offending qubits, and the subsequent
`.loc[q.name]` lookup fails (a `KeyError`) for any dropped qubit, aborting
the whole record. -/
theorem c7_positive_frequency_required (sq : Rat → Rat) (qubits : List String)
    (fit : List (String × FitVals)) :
    ((analysisBlock sq qubits fit).isOk = true →
      ∀ q, q ∈ qubits → ∃ p, p ∈ fit ∧ p.1 = q ∧ 0 < p.2.f)
    ∧ ∀ q, q ∈ qubits → (∀ p, p ∈ fit → p.1 = q → p.2.f ≤ 0) →
        locLookup (freqOffsetList fit) q = Option.none
        ∧ ∃ e, analysisBlock sq qubits fit = Except.error e := by
  constructor
  · intro hok q hq
    cases hb : analysisBlock sq qubits fit with
    | error e => rw [hb] at hok; simp [Except.isOk, Except.toBool] at hok
    | ok l =>
      have := buildRecords_ok_lookup (perQubitRecord sq fit) qubits l hb q hq
      obtain ⟨h1, _⟩ := this
      cases hlook : locLookup (freqOffsetList fit) q with
      | none =>
        rw [perQubitRecord.eq_def, hlook] at h1
        simp [Except.isOk, Except.toBool] at h1
      | some v =>
        obtain ⟨p, hmem, hname, hval, hpos⟩ :=
          locLookup_freqOffsetList_some fit q v hlook
        exact ⟨p, hmem, hname, hval ▸ hpos⟩
  · intro q hq hall
    have hnone := locLookup_freqOffsetList_none fit q hall
    refine ⟨hnone, ?_⟩
    have herr : perQubitRecord sq fit q = Except.error ("KeyError: " ++ q) := by
      rw [perQubitRecord.eq_def, hnone]
    exact buildRecords_error_of_mem (perQubitRecord sq fit) qubits q hq _ herr

/-- Witness for C7: with qubits `qA`, `qB` where `qB` fits a non-positive
frequency, the dropped-frequency lookup for `qB` fails and the whole
`fit_results` construction errors. -/
theorem c7_positive_frequency_required_witness :
    locLookup (freqOffsetList
        [("qA", ⟨1, 2, 0, 0, 4, 0⟩), ("qB", ⟨1, -3, 0, 0, 4, 0⟩)]) "qB"
      = Option.none
    ∧ ∃ e, analysisBlock (fun x => x) ["qA", "qB"]
        [("qA", ⟨1, 2, 0, 0, 4, 0⟩), ("qB", ⟨1, -3, 0, 0, 4, 0⟩)]
        = Except.error e :=
  (c7_positive_frequency_required (fun x => x) ["qA", "qB"]
      [("qA", ⟨1, 2, 0, 0, 4, 0⟩), ("qB", ⟨1, -3, 0, 0, 4, 0⟩)]).2
    "qB" (by simp) (by intro p hp hq; fin_cases hp <;> simp_all)

/-!
Qubit selection, lines 72 to 76:
`if node.parameters.qubits is None or node.parameters.qubits == "":`
`    qubits = machine.active_qubits`
`else:`
`    qubits = [machine.qubits[q] for q in node.parameters.qubits]`
The parameter is declared `Optional[List[str]]` but the code also compares
it against the empty string, so the embedded parameter value distinguishes
`None`, a string, and a list of names.  Iterating a Python string yields its
one-character substrings.
-/

/-- Stored per-qubit parameters of the machine state. -/
structure QubitParams where
  f01 : Rat
  t2ramsey : Rat
deriving DecidableEq

/-- The loaded QuAM machine: its active qubits and its qubit mapping. -/
structure Machine where
  activeQubits : List String
  qubits : List (String × QubitParams)
deriving DecidableEq

/-- The `qubits` node parameter: `None`, a string, or a list of names. -/
inductive QubitsParam where
  | noneParam
  | strParam (s : String)
  | namesParam (l : List String)
deriving DecidableEq

/-- The list comprehension `[machine.qubits[q] for q in names]`: looks the
names up left to right and raises `KeyError` at the first absent one. -/
def lookupEach (m : Machine) : List String → Except String (List String)
  | [] => Except.ok []
  | q :: qs =>
    match locLookup m.qubits q with
    | Option.none => Except.error ("KeyError: " ++ q)
    | some _ =>
      match lookupEach m qs with
      | Except.error e => Except.error e
      | Except.ok rest => Except.ok (q :: rest)

/-- Iterating a Python string yields its characters as strings. -/
def charNames (s : String) : List String :=
  s.toList.map (fun c => String.mk [c])

/-- Lines 72 to 76: choose the machine's active qubits when the parameter is
`None` or the empty string, otherwise look each listed name up in
`machine.qubits`. -/
def selectQubits (m : Machine) (p : QubitsParam) : Except String (List String) :=
  match p with
  | QubitsParam.noneParam => Except.ok m.activeQubits
  | QubitsParam.strParam s =>
    if s = "" then Except.ok m.activeQubits else lookupEach m (charNames s)
  | QubitsParam.namesParam l => lookupEach m l

/-- The successive top-level phases of the script, lines 96 to 360: the QUA
program is built unconditionally; the `simulate` branch only plots the
simulated samples and saves; otherwise the program is executed when no
`load_data_id` is given (else the stored dataset is loaded), and the
fetch, double analysis and save follow. -/
inductive Phase where
  | buildProgram
  | simulateJob
  | executeJob
  | fetchResults
  | loadFromStorage
  | fitAnalysis
  | saveNode
deriving DecidableEq

/-- Phase list of one run as dispatched by `node.parameters.simulate`
(line 147) and `node.parameters.load_data_id` (lines 164, 178). -/
def scriptPhases (simFlag : Bool) (loadDataId : Option Nat) : List Phase :=
  [Phase.buildProgram] ++
    (if simFlag then [Phase.simulateJob, Phase.saveNode]
     else
       (if loadDataId.isNone then [Phase.executeJob, Phase.fetchResults]
        else [Phase.loadFromStorage]) ++ [Phase.fitAnalysis, Phase.saveNode])

/-- Qubit selection happens before the QUA program is built: when a listed
name is absent the script dies on the `KeyError` and no later phase runs. -/
def scriptStart (m : Machine) (p : QubitsParam) (simFlag : Bool)
    (loadDataId : Option Nat) : Except String (List Phase) :=
  match selectQubits m p with
  | Except.error e => Except.error e
  | Except.ok _ => Except.ok (scriptPhases simFlag loadDataId)

theorem lookupEach_ok_of_all (m : Machine) (l : List String)
    (h : ∀ q, q ∈ l → (locLookup m.qubits q).isSome = true) :
    lookupEach m l = Except.ok l := by
  induction l with
  | nil => rfl
  | cons q rest ih =>
    have hq := h q (List.mem_cons_self q rest)
    cases hlook : locLookup m.qubits q with
    | none => rw [hlook] at hq; simp at hq
    | some v =>
      have hrest := ih (fun q' hm => h q' (List.mem_cons_of_mem q hm))
      simp [lookupEach, hlook, hrest]

theorem lookupEach_error_of_missing (m : Machine) (l : List String)
    (h : ∃ q, q ∈ l ∧ locLookup m.qubits q = Option.none) :
    ∃ q, q ∈ l ∧ locLookup m.qubits q = Option.none
      ∧ lookupEach m l = Except.error ("KeyError: " ++ q) := by
  induction l with
  | nil => obtain ⟨q, hm, _⟩ := h; simp at hm
  | cons x rest ih =>
    cases hlook : locLookup m.qubits x with
    | none =>
      exact ⟨x, List.mem_cons_self x rest, hlook, by simp [lookupEach, hlook]⟩
    | some v =>
      obtain ⟨q, hm, hq⟩ := h
      rcases List.mem_cons.mp hm with hx | hx
      · subst hx; rw [hlook] at hq; exact absurd hq (by simp)
      · obtain ⟨q', hm', hq', herr⟩ := ih ⟨q, hx, hq⟩
        exact ⟨q', List.mem_cons_of_mem x hm', hq', by simp [lookupEach, hlook, herr]⟩

/-- C10: when the `qubits` parameter is `None` or the empty string the
machine's active qubits are selected; otherwise the listed names are looked
up in `machine.qubits` in the given order, and a name absent from that
mapping makes the script fail with a lookup error before any program phase
is reached. -/
theorem c10_qubit_selection (m : Machine) (p : QubitsParam) (simFlag : Bool)
    (loadDataId : Option Nat) :
    ((p = QubitsParam.noneParam ∨ p = QubitsParam.strParam "") →
      selectQubits m p = Except.ok m.activeQubits
      ∧ scriptStart m p simFlag loadDataId = Except.ok (scriptPhases simFlag loadDataId))
    ∧ ∀ l, p = QubitsParam.namesParam l →
        ((∀ q, q ∈ l → (locLookup m.qubits q).isSome = true) →
          selectQubits m p = Except.ok l)
        ∧ ((∃ q, q ∈ l ∧ locLookup m.qubits q = Option.none) →
          ∃ q, q ∈ l ∧ locLookup m.qubits q = Option.none
            ∧ scriptStart m p simFlag loadDataId = Except.error ("KeyError: " ++ q)) := by
  constructor
  · rintro (hp | hp) <;> subst hp <;>
      exact ⟨rfl, by simp [scriptStart, selectQubits]⟩
  · intro l hp
    subst hp
    constructor
    · intro hall
      simpa [selectQubits] using lookupEach_ok_of_all m l hall
    · intro hmiss
      obtain ⟨q, hm, hq, herr⟩ := lookupEach_error_of_missing m l hmiss
      exact ⟨q, hm, hq, by simp [scriptStart, selectQubits, herr]⟩

/-- Witness for C10: a machine whose mapping holds only `qD1`; the `None`
parameter selects the active qubits and the list `[qX]` fails with a
`KeyError` before any phase runs. -/
theorem c10_qubit_selection_witness :
    selectQubits { activeQubits := ["qD1"], qubits := [("qD1", ⟨5, 7⟩)] }
        QubitsParam.noneParam = Except.ok ["qD1"]
    ∧ ∃ q, q ∈ ["qX"] ∧ locLookup (Machine.qubits
          { activeQubits := ["qD1"], qubits := [("qD1", ⟨5, 7⟩)] }) q = Option.none
        ∧ scriptStart { activeQubits := ["qD1"], qubits := [("qD1", ⟨5, 7⟩)] }
            (QubitsParam.namesParam ["qX"]) false Option.none
          = Except.error ("KeyError: " ++ q) :=
  ⟨((c10_qubit_selection { activeQubits := ["qD1"], qubits := [("qD1", ⟨5, 7⟩)] }
      QubitsParam.noneParam false Option.none).1 (Or.inl rfl)).1,
    ((c10_qubit_selection { activeQubits := ["qD1"], qubits := [("qD1", ⟨5, 7⟩)] }
      (QubitsParam.namesParam ["qX"]) false Option.none).2 ["qX"] rfl).2
      ⟨"qX", by simp, by simp [locLookup]⟩⟩

/-- C4 counterexample: in a simulator run (`simulate = true`) the script
performs neither the result fetch nor the fit analysis, so the claim that
every run fetches, builds the dataset and fits is false. -/
theorem c4_counterexample :
    Phase.fetchResults ∉ scriptPhases true Option.none
    ∧ Phase.fitAnalysis ∉ scriptPhases true Option.none := by
  constructor <;> simp [scriptPhases]

/-- C4 amended: the fetch/fit phases run exactly in non-simulated runs (the
fetch from the job additionally requires no `load_data_id`); a simulator run
only simulates and saves.  The save phase runs in every case. -/
theorem c4_fetch_fit_only_without_simulate (simFlag : Bool) (loadDataId : Option Nat) :
    (Phase.fetchResults ∈ scriptPhases simFlag loadDataId
      ↔ simFlag = false ∧ loadDataId = Option.none)
    ∧ (Phase.fitAnalysis ∈ scriptPhases simFlag loadDataId ↔ simFlag = false)
    ∧ Phase.saveNode ∈ scriptPhases simFlag loadDataId := by
  cases simFlag <;> cases loadDataId <;> simp [scriptPhases]

/-- Witness for C4's amended theorem at the two concrete dispatch modes. -/
theorem c4_fetch_fit_only_without_simulate_witness :
    (Phase.fetchResults ∈ scriptPhases false Option.none
      ↔ false = false ∧ (Option.none : Option Nat) = Option.none)
    ∧ (Phase.fitAnalysis ∈ scriptPhases true Option.none ↔ true = false) :=
  ⟨(c4_fetch_fit_only_without_simulate false Option.none).1,
    (c4_fetch_fit_only_without_simulate true Option.none).2.1⟩

/-!
The live-polling loop, lines 168 to 173:
`results = fetching_tool(job, ["n"], mode="live")`
`while results.is_processing():`
`    n = results.fetch_all()[0]`
`    progress_counter(n, n_avg, start_time=results.start_time)`
`pollTrace status counter fuel i` runs the loop from poll index `i`:
while the job reports processing it fetches the iteration counter
(`counter i`) and polls again; it exits at the first poll reporting not
processing, returning the fetched counters and the exit index (`none` when
`fuel` polls did not suffice, the job still running).
-/

/-- The live-polling loop: fetch the iteration counter on every poll that
reports processing, stop at the first poll that does not. -/
def pollTrace (status : Nat → Bool) (counter : Nat → Nat) :
    Nat → Nat → Option (List Nat × Nat)
  | 0, _ => Option.none
  | fuel + 1, i =>
    if status i then
      (pollTrace status counter fuel (i + 1)).map (fun r => (counter i :: r.1, r.2))
    else
      some ([], i)

theorem pollTrace_spec (status : Nat → Bool) (counter : Nat → Nat)
    (fuel i k : Nat) (fs : List Nat)
    (h : pollTrace status counter fuel i = some (fs, k)) :
    i ≤ k ∧ status k = false ∧ (∀ j, i ≤ j → j < k → status j = true)
      ∧ fs = (List.range' i (k - i)).map counter := by
  induction fuel generalizing i fs with
  | zero => simp [pollTrace] at h
  | succ fuel ih =>
    by_cases hs : status i
    · rw [pollTrace, if_pos hs] at h
      cases hrec : pollTrace status counter fuel (i + 1) with
      | none => rw [hrec] at h; simp at h
      | some r =>
        rw [hrec] at h
        obtain ⟨fs', k'⟩ := r
        simp only [Option.map_some'] at h
        have hfs : fs = counter i :: fs' ∧ k = k' := by
          have := Option.some.inj h
          exact ⟨congrArg Prod.fst this.symm, congrArg Prod.snd this.symm⟩
        obtain ⟨hfs, hk⟩ := hfs
        subst hk
        obtain ⟨h1, h2, h3, h4⟩ := ih (i + 1) fs' hrec
        refine ⟨by omega, h2, ?_, ?_⟩
        · intro j hij hjk
          by_cases hji : j = i
          · subst hji; exact hs
          · exact h3 j (by omega) hjk
        · have hki : k - i = (k - (i + 1)) + 1 := by omega
          rw [hfs, h4, hki, List.range'_succ, List.map_cons]
    · rw [pollTrace, if_neg hs] at h
      have := Option.some.inj h
      have hfs : fs = [] := congrArg Prod.fst this.symm
      have hk : k = i := congrArg Prod.snd this.symm
      subst hk
      exact ⟨Nat.le_refl _, by simpa using hs, fun j h1 h2 => by omega,
        by simp [hfs]⟩

/-- C8: whenever the live-polling loop terminates (exits at poll `k`), the
job reported not-processing at poll `k`, every earlier poll reported
processing and fetched the iteration counter, so the script reaches the
result-fetching and analysis phases only after the device-side program has
finished processing. -/
theorem c8_polling_until_done (status : Nat → Bool) (counter : Nat → Nat)
    (fuel k : Nat) (fs : List Nat)
    (h : pollTrace status counter fuel 0 = some (fs, k)) :
    status k = false ∧ (∀ j, j < k → status j = true)
      ∧ fs = (List.range' 0 k).map counter := by
  obtain ⟨h1, h2, h3, h4⟩ := pollTrace_spec status counter fuel 0 k fs h
  exact ⟨h2, fun j hj => h3 j (Nat.zero_le j) hj, by simpa using h4⟩

/-- Witness for C8: a job processing for two polls; the loop fetches the
counter twice and exits at poll 2, where the job first reports finished. -/
theorem c8_polling_until_done_witness :
    (fun j => decide (j < 2)) 2 = false
    ∧ (∀ j, j < 2 → (fun j => decide (j < 2)) j = true)
    ∧ [10, 11] = (List.range' 0 2).map (fun j => 10 + j) :=
  c8_polling_until_done (fun j => decide (j < 2)) (fun j => 10 + j) 5 2 [10, 11]
    (by decide)

/-!
The non-simulated pipeline, lines 164 to 360, for a run without
`load_data_id`: selection, execution (the hardware session and polling
loop, an opaque fallible stage), fetch, time-coordinate assignment,
`node.results = {"ds": ds}`, the exponential-decay analysis block and its
`fit_results` assignment, the first figure, the gaussian-decay analysis
block whose `fit_results` assignment replaces the previous one, the second
figure, `initial_parameters`, `node.machine = machine`, and `node.save()`.
The script has no try/except: each stage is an explicit `Except` and any
error short-circuits the rest of the pipeline unchanged.
-/

/-- A value stored in `node.results`. -/
inductive ResultValue where
  | dataset (ds : Dataset)
  | figure (tag : String)
  | fitResults (fr : List (String × FitRecord))
  | initialParameters
deriving DecidableEq

/-- What `node.save()` persists: the results dict and the machine state. -/
structure SavedNode where
  results : List (String × ResultValue)
  machine : Machine
deriving DecidableEq

/-- The whole non-simulated run of the script.  `session` stands for the
hardware session with its polling loop, `fetched` for
`fetch_results_as_xarray`, and `fitE`, `fitG` for the two external fitters
(`fit_oscillation_decay_exp`, `fit_oscillation_decay_gaussian`); each may
fail, and the script catches nothing. -/
def scriptRun (sq : Rat → Rat) (m : Machine) (p : QubitsParam) (lo hi : Nat)
    (session : Except String Unit) (fetched : Except String Dataset)
    (fitE fitG : Dataset → Except String (List (String × FitVals))) :
    Except String SavedNode :=
  match selectQubits m p with
  | Except.error e => Except.error e
  | Except.ok qs =>
    match session with
    | Except.error e => Except.error e
    | Except.ok _ =>
      match fetched with
      | Except.error e => Except.error e
      | Except.ok raw =>
        let ds := assignAbsoluteTime raw lo hi
        let r0 := dictSet [] "ds" (ResultValue.dataset ds)
        match fitE ds with
        | Except.error e => Except.error e
        | Except.ok fe =>
          match analysisBlock sq qs fe with
          | Except.error e => Except.error e
          | Except.ok frE =>
            let r1 := dictSet r0 "fit_results" (ResultValue.fitResults frE)
            let r2 := dictSet r1 "figure" (ResultValue.figure "ramsey")
            match fitG ds with
            | Except.error e => Except.error e
            | Except.ok fg =>
              match analysisBlock sq qs fg with
              | Except.error e => Except.error e
              | Except.ok frG =>
                let r3 := dictSet r2 "fit_results" (ResultValue.fitResults frG)
                let r4 := dictSet r3 "figure_gaussian" (ResultValue.figure "ramsey_gaussian")
                let r5 := dictSet r4 "initial_parameters" ResultValue.initialParameters
                Except.ok { results := r5, machine := m }

theorem scriptRun_eq (sq : Rat → Rat) (m : Machine) (p : QubitsParam) (lo hi : Nat)
    (raw : Dataset) (fitE fitG : Dataset → Except String (List (String × FitVals)))
    (qs : List String) (fe fg : List (String × FitVals))
    (frE frG : List (String × FitRecord))
    (hsel : selectQubits m p = Except.ok qs)
    (hfe : fitE (assignAbsoluteTime raw lo hi) = Except.ok fe)
    (haE : analysisBlock sq qs fe = Except.ok frE)
    (hfg : fitG (assignAbsoluteTime raw lo hi) = Except.ok fg)
    (haG : analysisBlock sq qs fg = Except.ok frG) :
    scriptRun sq m p lo hi (Except.ok ()) (Except.ok raw) fitE fitG
      = Except.ok
          { results :=
              dictSet (dictSet (dictSet (dictSet (dictSet (dictSet []
                "ds" (ResultValue.dataset (assignAbsoluteTime raw lo hi)))
                "fit_results" (ResultValue.fitResults frE))
                "figure" (ResultValue.figure "ramsey"))
                "fit_results" (ResultValue.fitResults frG))
                "figure_gaussian" (ResultValue.figure "ramsey_gaussian"))
                "initial_parameters" ResultValue.initialParameters,
            machine := m } := by
  simp only [scriptRun, hsel, hfe, haE, hfg, haG]

/-- C1 counterexample: a run whose exponential-decay fit yields frequency 2
(in 1/ns) and whose gaussian-decay fit yields frequency 3; the persisted
`fit_results` record holds the gaussian fit's `freq_offset` of `3e9`, not
the first fit's output, so the persisted parameters are not the output of a
single fit: the second fit with a different decay model replaces them. -/
theorem c1_counterexample :
    (scriptRun (fun x => x) ⟨["qD1"], [("qD1", ⟨5, 7⟩)]⟩
        (QubitsParam.namesParam ["qD1"]) 16 24 (Except.ok ())
        (Except.ok ⟨[], []⟩)
        (fun _ => Except.ok [("qD1", ⟨1, 2, 0, 0, 4, 0⟩)])
        (fun _ => Except.ok [("qD1", ⟨1, 3, 0, 0, 4, 0⟩)])).map
        (fun nd => locLookup nd.results "fit_results")
      = Except.ok (some (ResultValue.fitResults
          [("qD1", ⟨(1000000000 : Rat) * 3, (1 / 1000000000 : Rat) * (1 / 4),
            (1 / 1000000000 : Rat) * ((1 / 4) * ((0 : Rat) / 4))⟩)]))
    ∧ ResultValue.fitResults
          [("qD1", (⟨(1000000000 : Rat) * 3, (1 / 1000000000 : Rat) * (1 / 4),
            (1 / 1000000000 : Rat) * ((1 / 4) * ((0 : Rat) / 4))⟩ : FitRecord))]
        ≠ ResultValue.fitResults
          [("qD1", ⟨(1000000000 : Rat) * 2, (1 / 1000000000 : Rat) * (1 / 4),
            (1 / 1000000000 : Rat) * ((1 / 4) * ((0 : Rat) / 4))⟩)] := by
  refine ⟨rfl, fun h => ?_⟩
  simp only [ResultValue.fitResults.injEq, List.cons.injEq, Prod.mk.injEq,
    FitRecord.mk.injEq] at h
  have hf : (1000000000 : Rat) * 3 = (1000000000 : Rat) * 2 := h.1.2.1
  norm_num at hf

/-- C1 amended: the analysis step runs two nonlinear least-squares fits, an
exponential-decay and then a gaussian-decay oscillation model; the
`fit_results` record persisted in the node's results is the output of the
second (gaussian) fit, whose assignment replaces the first fit's record
before saving. -/
theorem c1_gaussian_fit_results_persisted (sq : Rat → Rat) (m : Machine)
    (p : QubitsParam) (lo hi : Nat) (raw : Dataset)
    (fitE fitG : Dataset → Except String (List (String × FitVals)))
    (qs : List String) (fe fg : List (String × FitVals))
    (frE frG : List (String × FitRecord))
    (hsel : selectQubits m p = Except.ok qs)
    (hfe : fitE (assignAbsoluteTime raw lo hi) = Except.ok fe)
    (haE : analysisBlock sq qs fe = Except.ok frE)
    (hfg : fitG (assignAbsoluteTime raw lo hi) = Except.ok fg)
    (haG : analysisBlock sq qs fg = Except.ok frG) :
    (scriptRun sq m p lo hi (Except.ok ()) (Except.ok raw) fitE fitG).map
        (fun nd => locLookup nd.results "fit_results")
      = Except.ok (some (ResultValue.fitResults frG))
    ∧ (frE ≠ frG →
        (scriptRun sq m p lo hi (Except.ok ()) (Except.ok raw) fitE fitG).map
            (fun nd => locLookup nd.results "fit_results")
          ≠ Except.ok (some (ResultValue.fitResults frE))) := by
  have heq := scriptRun_eq sq m p lo hi raw fitE fitG qs fe fg frE frG
    hsel hfe haE hfg haG
  have hlook : (scriptRun sq m p lo hi (Except.ok ()) (Except.ok raw) fitE fitG).map
      (fun nd => locLookup nd.results "fit_results")
      = Except.ok (some (ResultValue.fitResults frG)) := by
    rw [heq]
    simp only [Except.map]
    rw [locLookup_dictSet_ne _ _ _ _ (by decide),
      locLookup_dictSet_ne _ _ _ _ (by decide),
      locLookup_dictSet_self]
  refine ⟨hlook, fun hne hcontra => ?_⟩
  rw [hlook] at hcontra
  have : frG = frE := by
    have h1 := Except.ok.inj hcontra
    have h2 := Option.some.inj h1
    cases h2
    rfl
  exact hne this.symm

/-- Witness for C1's amended theorem at a concrete run with two distinct
fit outputs. -/
theorem c1_gaussian_fit_results_persisted_witness :
    (scriptRun (fun x => x) ⟨["qD1"], [("qD1", ⟨5, 7⟩)]⟩
        (QubitsParam.namesParam ["qD1"]) 16 24 (Except.ok ())
        (Except.ok ⟨[], []⟩)
        (fun _ => Except.ok [("qD1", ⟨1, 2, 0, 0, 4, 0⟩)])
        (fun _ => Except.ok [("qD1", ⟨1, 3, 0, 0, 4, 0⟩)])).map
        (fun nd => locLookup nd.results "fit_results")
      = Except.ok (some (ResultValue.fitResults
          [("qD1", ⟨(1000000000 : Rat) * 3, (1 / 1000000000 : Rat) * (1 / 4),
            (1 / 1000000000 : Rat) * ((1 / 4) * ((0 : Rat) / 4))⟩)])) :=
  (c1_gaussian_fit_results_persisted (fun x => x) ⟨["qD1"], [("qD1", ⟨5, 7⟩)]⟩
    (QubitsParam.namesParam ["qD1"]) 16 24 ⟨[], []⟩
    (fun _ => Except.ok [("qD1", ⟨1, 2, 0, 0, 4, 0⟩)])
    (fun _ => Except.ok [("qD1", ⟨1, 3, 0, 0, 4, 0⟩)])
    ["qD1"] [("qD1", ⟨1, 2, 0, 0, 4, 0⟩)] [("qD1", ⟨1, 3, 0, 0, 4, 0⟩)]
    [("qD1", ⟨(1000000000 : Rat) * 2, (1 / 1000000000 : Rat) * (1 / 4),
      (1 / 1000000000 : Rat) * ((1 / 4) * ((0 : Rat) / 4))⟩)]
    [("qD1", ⟨(1000000000 : Rat) * 3, (1 / 1000000000 : Rat) * (1 / 4),
      (1 / 1000000000 : Rat) * ((1 / 4) * ((0 : Rat) / 4))⟩)]
    rfl rfl rfl rfl rfl).1

/-- C2 counterexample: a run whose fit finds frequency offset `2e9` Hz and
T2* `1/4e9` s for `qD1`, while the machine stores `f01 = 5` and
`t2ramsey = 7`; the saved node's machine is the input machine unchanged, so
the fitted frequency offset and T2* are only reported in the separate
`fit_results` record and are not written back as updated qubit
parameters. -/
theorem c2_counterexample :
    (scriptRun (fun x => x) ⟨["qD1"], [("qD1", ⟨5, 7⟩)]⟩
        (QubitsParam.namesParam ["qD1"]) 16 24 (Except.ok ())
        (Except.ok ⟨[], []⟩)
        (fun _ => Except.ok [("qD1", ⟨1, 2, 0, 0, 4, 0⟩)])
        (fun _ => Except.ok [("qD1", ⟨1, 2, 0, 0, 4, 0⟩)])).map SavedNode.machine
      = Except.ok ⟨["qD1"], [("qD1", ⟨5, 7⟩)]⟩
    ∧ (scriptRun (fun x => x) ⟨["qD1"], [("qD1", ⟨5, 7⟩)]⟩
        (QubitsParam.namesParam ["qD1"]) 16 24 (Except.ok ())
        (Except.ok ⟨[], []⟩)
        (fun _ => Except.ok [("qD1", ⟨1, 2, 0, 0, 4, 0⟩)])
        (fun _ => Except.ok [("qD1", ⟨1, 2, 0, 0, 4, 0⟩)])).map
        (fun nd => locLookup nd.results "fit_results")
      = Except.ok (some (ResultValue.fitResults
          [("qD1", ⟨(1000000000 : Rat) * 2, (1 / 1000000000 : Rat) * (1 / 4),
            (1 / 1000000000 : Rat) * ((1 / 4) * ((0 : Rat) / 4))⟩)]))
    ∧ (1000000000 : Rat) * 2 ≠ 5 ∧ (1 / 1000000000 : Rat) * (1 / 4) ≠ 7 := by
  exact ⟨rfl, rfl, by norm_num, by norm_num⟩

/-- C2 amended: after fitting, the frequency offset and T2* are persisted
only as the per-qubit `fit_results` record in the node's results; the
machine and its qubit parameters are saved unchanged (the script's header
lists updating the qubit frequency and T2 in the state as a next step). -/
theorem c2_machine_saved_unchanged (sq : Rat → Rat) (m : Machine)
    (p : QubitsParam) (lo hi : Nat) (raw : Dataset)
    (fitE fitG : Dataset → Except String (List (String × FitVals)))
    (qs : List String) (fe fg : List (String × FitVals))
    (frE frG : List (String × FitRecord))
    (hsel : selectQubits m p = Except.ok qs)
    (hfe : fitE (assignAbsoluteTime raw lo hi) = Except.ok fe)
    (haE : analysisBlock sq qs fe = Except.ok frE)
    (hfg : fitG (assignAbsoluteTime raw lo hi) = Except.ok fg)
    (haG : analysisBlock sq qs fg = Except.ok frG) :
    (scriptRun sq m p lo hi (Except.ok ()) (Except.ok raw) fitE fitG).map
        SavedNode.machine
      = Except.ok m
    ∧ (scriptRun sq m p lo hi (Except.ok ()) (Except.ok raw) fitE fitG).map
        (fun nd => locLookup nd.results "fit_results")
      = Except.ok (some (ResultValue.fitResults frG)) := by
  have heq := scriptRun_eq sq m p lo hi raw fitE fitG qs fe fg frE frG
    hsel hfe haE hfg haG
  constructor
  · rw [heq]; rfl
  · rw [heq]
    simp only [Except.map]
    rw [locLookup_dictSet_ne _ _ _ _ (by decide),
      locLookup_dictSet_ne _ _ _ _ (by decide),
      locLookup_dictSet_self]

/-- Witness for C2's amended theorem. -/
theorem c2_machine_saved_unchanged_witness :
    (scriptRun (fun x => x) ⟨["qD1"], [("qD1", ⟨5, 7⟩)]⟩
        (QubitsParam.namesParam ["qD1"]) 16 24 (Except.ok ())
        (Except.ok ⟨[], []⟩)
        (fun _ => Except.ok [("qD1", ⟨1, 2, 0, 0, 4, 0⟩)])
        (fun _ => Except.ok [("qD1", ⟨1, 2, 0, 0, 4, 0⟩)])).map SavedNode.machine
      = Except.ok ⟨["qD1"], [("qD1", ⟨5, 7⟩)]⟩ :=
  (c2_machine_saved_unchanged (fun x => x) ⟨["qD1"], [("qD1", ⟨5, 7⟩)]⟩
    (QubitsParam.namesParam ["qD1"]) 16 24 ⟨[], []⟩
    (fun _ => Except.ok [("qD1", ⟨1, 2, 0, 0, 4, 0⟩)])
    (fun _ => Except.ok [("qD1", ⟨1, 2, 0, 0, 4, 0⟩)])
    ["qD1"] [("qD1", ⟨1, 2, 0, 0, 4, 0⟩)] [("qD1", ⟨1, 2, 0, 0, 4, 0⟩)]
    [("qD1", ⟨(1000000000 : Rat) * 2, (1 / 1000000000 : Rat) * (1 / 4),
      (1 / 1000000000 : Rat) * ((1 / 4) * ((0 : Rat) / 4))⟩)]
    [("qD1", ⟨(1000000000 : Rat) * 2, (1 / 1000000000 : Rat) * (1 / 4),
      (1 / 1000000000 : Rat) * ((1 / 4) * ((0 : Rat) / 4))⟩)]
    rfl rfl rfl rfl rfl).1

/-- C3: a saved non-simulated run's results bundle contains the dataset
under `ds`, both figures, and a `fit_results` record with an entry for
every selected qubit; each entry is a `FitRecord`, which holds exactly a
frequency offset (`freq_offset`), a decay constant (`decay`) and its
uncertainty (`decay_error`). -/
theorem c3_results_bundle (sq : Rat → Rat) (m : Machine)
    (p : QubitsParam) (lo hi : Nat) (raw : Dataset)
    (fitE fitG : Dataset → Except String (List (String × FitVals)))
    (qs : List String) (fe fg : List (String × FitVals))
    (frE frG : List (String × FitRecord))
    (hsel : selectQubits m p = Except.ok qs)
    (hfe : fitE (assignAbsoluteTime raw lo hi) = Except.ok fe)
    (haE : analysisBlock sq qs fe = Except.ok frE)
    (hfg : fitG (assignAbsoluteTime raw lo hi) = Except.ok fg)
    (haG : analysisBlock sq qs fg = Except.ok frG) :
    (scriptRun sq m p lo hi (Except.ok ()) (Except.ok raw) fitE fitG).map
        (fun nd => locLookup nd.results "ds")
      = Except.ok (some (ResultValue.dataset (assignAbsoluteTime raw lo hi)))
    ∧ (scriptRun sq m p lo hi (Except.ok ()) (Except.ok raw) fitE fitG).map
        (fun nd => locLookup nd.results "figure")
      = Except.ok (some (ResultValue.figure "ramsey"))
    ∧ (scriptRun sq m p lo hi (Except.ok ()) (Except.ok raw) fitE fitG).map
        (fun nd => locLookup nd.results "figure_gaussian")
      = Except.ok (some (ResultValue.figure "ramsey_gaussian"))
    ∧ (scriptRun sq m p lo hi (Except.ok ()) (Except.ok raw) fitE fitG).map
        (fun nd => locLookup nd.results "fit_results")
      = Except.ok (some (ResultValue.fitResults frG))
    ∧ ∀ q, q ∈ qs → ∃ r, locLookup frG q = some r := by
  have heq := scriptRun_eq sq m p lo hi raw fitE fitG qs fe fg frE frG
    hsel hfe haE hfg haG
  refine ⟨?_, ?_, ?_, ?_, ?_⟩
  · rw [heq]
    simp only [Except.map]
    rw [locLookup_dictSet_ne _ _ _ _ (by decide),
      locLookup_dictSet_ne _ _ _ _ (by decide),
      locLookup_dictSet_ne _ _ _ _ (by decide),
      locLookup_dictSet_ne _ _ _ _ (by decide),
      locLookup_dictSet_ne _ _ _ _ (by decide),
      locLookup_dictSet_self]
  · rw [heq]
    simp only [Except.map]
    rw [locLookup_dictSet_ne _ _ _ _ (by decide),
      locLookup_dictSet_ne _ _ _ _ (by decide),
      locLookup_dictSet_ne _ _ _ _ (by decide),
      locLookup_dictSet_self]
  · rw [heq]
    simp only [Except.map]
    rw [locLookup_dictSet_ne _ _ _ _ (by decide),
      locLookup_dictSet_self]
  · rw [heq]
    simp only [Except.map]
    rw [locLookup_dictSet_ne _ _ _ _ (by decide),
      locLookup_dictSet_ne _ _ _ _ (by decide),
      locLookup_dictSet_self]
  · intro q hq
    exact (buildRecords_ok_lookup (perQubitRecord sq fg) qs frG haG q hq).2

/-- Witness for C3 at a concrete single-qubit run. -/
theorem c3_results_bundle_witness :
    (scriptRun (fun x => x) ⟨["qD1"], [("qD1", ⟨5, 7⟩)]⟩
        (QubitsParam.namesParam ["qD1"]) 16 24 (Except.ok ())
        (Except.ok ⟨[], []⟩)
        (fun _ => Except.ok [("qD1", ⟨1, 2, 0, 0, 4, 0⟩)])
        (fun _ => Except.ok [("qD1", ⟨1, 2, 0, 0, 4, 0⟩)])).map
        (fun nd => locLookup nd.results "ds")
      = Except.ok (some (ResultValue.dataset (assignAbsoluteTime ⟨[], []⟩ 16 24)))
    ∧ (scriptRun (fun x => x) ⟨["qD1"], [("qD1", ⟨5, 7⟩)]⟩
        (QubitsParam.namesParam ["qD1"]) 16 24 (Except.ok ())
        (Except.ok ⟨[], []⟩)
        (fun _ => Except.ok [("qD1", ⟨1, 2, 0, 0, 4, 0⟩)])
        (fun _ => Except.ok [("qD1", ⟨1, 2, 0, 0, 4, 0⟩)])).map
        (fun nd => locLookup nd.results "figure")
      = Except.ok (some (ResultValue.figure "ramsey")) := by
  have h := c3_results_bundle (fun x => x) ⟨["qD1"], [("qD1", ⟨5, 7⟩)]⟩
    (QubitsParam.namesParam ["qD1"]) 16 24 ⟨[], []⟩
    (fun _ => Except.ok [("qD1", ⟨1, 2, 0, 0, 4, 0⟩)])
    (fun _ => Except.ok [("qD1", ⟨1, 2, 0, 0, 4, 0⟩)])
    ["qD1"] [("qD1", ⟨1, 2, 0, 0, 4, 0⟩)] [("qD1", ⟨1, 2, 0, 0, 4, 0⟩)]
    [("qD1", ⟨(1000000000 : Rat) * 2, (1 / 1000000000 : Rat) * (1 / 4),
      (1 / 1000000000 : Rat) * ((1 / 4) * ((0 : Rat) / 4))⟩)]
    [("qD1", ⟨(1000000000 : Rat) * 2, (1 / 1000000000 : Rat) * (1 / 4),
      (1 / 1000000000 : Rat) * ((1 / 4) * ((0 : Rat) / 4))⟩)]
    rfl rfl rfl rfl rfl
  exact ⟨h.1, h.2.1⟩

/-- C9: the script catches no exceptions and performs no recovery or
fallback: a failure of the hardware session (for example a timeout during
execution), of the result fetch, or of either curve fit (non-convergence)
short-circuits the rest of the pipeline and propagates out of the run
unchanged. -/
theorem c9_errors_propagate_uncaught (sq : Rat → Rat) (m : Machine)
    (p : QubitsParam) (lo hi : Nat)
    (fitE fitG : Dataset → Except String (List (String × FitVals)))
    (qs : List String) (hsel : selectQubits m p = Except.ok qs) :
    (∀ e fetched, scriptRun sq m p lo hi (Except.error e) fetched fitE fitG
        = Except.error e)
    ∧ (∀ e, scriptRun sq m p lo hi (Except.ok ()) (Except.error e) fitE fitG
        = Except.error e)
    ∧ (∀ e raw, fitE (assignAbsoluteTime raw lo hi) = Except.error e →
        scriptRun sq m p lo hi (Except.ok ()) (Except.ok raw) fitE fitG
          = Except.error e)
    ∧ (∀ e raw fe frE, fitE (assignAbsoluteTime raw lo hi) = Except.ok fe →
        analysisBlock sq qs fe = Except.ok frE →
        fitG (assignAbsoluteTime raw lo hi) = Except.error e →
        scriptRun sq m p lo hi (Except.ok ()) (Except.ok raw) fitE fitG
          = Except.error e) := by
  refine ⟨?_, ?_, ?_, ?_⟩
  · intro e fetched
    simp only [scriptRun, hsel]
  · intro e
    simp only [scriptRun, hsel]
  · intro e raw hfit
    simp only [scriptRun, hsel, hfit]
  · intro e raw fe frE hfe haE hfit
    simp only [scriptRun, hsel, hfe, haE, hfit]

/-- Witness for C9: a hardware session timeout propagates out of a concrete
run unchanged. -/
theorem c9_errors_propagate_uncaught_witness :
    scriptRun (fun x => x) ⟨["qD1"], [("qD1", ⟨5, 7⟩)]⟩
        (QubitsParam.namesParam ["qD1"]) 16 24
        (Except.error "timeout") (Except.ok ⟨[], []⟩)
        (fun _ => Except.ok [("qD1", ⟨1, 2, 0, 0, 4, 0⟩)])
        (fun _ => Except.ok [("qD1", ⟨1, 2, 0, 0, 4, 0⟩)])
      = Except.error "timeout" :=
  (c9_errors_propagate_uncaught (fun x => x) ⟨["qD1"], [("qD1", ⟨5, 7⟩)]⟩
    (QubitsParam.namesParam ["qD1"]) 16 24
    (fun _ => Except.ok [("qD1", ⟨1, 2, 0, 0, 4, 0⟩)])
    (fun _ => Except.ok [("qD1", ⟨1, 2, 0, 0, 4, 0⟩)])
    ["qD1"] rfl).1 "timeout" (Except.ok ⟨[], []⟩)

end Ramsey96
